import Mathlib

/-!
Verification development for the cal-backend server (`server.js`).

The server is a single-file Express application backed by MySQL (driver
`mysql2/promise`).  We shallowly embed the parts of the program that the
properties below talk about:

* JSON documents (`Json`), `JSON.stringify` (`stringify`) and `JSON.parse`
  (`jsonParse`, returning `none` on a parse error), restricted to integer
  number literals — every number the server itself writes is produced by
  `JSON.stringify` of integer-free payload structure, and no property here
  depends on non-integer numbers;
* JavaScript truthiness (`jsTruthy`) and `parseInt` (`parseIntJs`);
* the `annual_plans` table as a list of rows, the connection pool as
  `Option Table` (`none` = offline, mirroring `pool = null`);
* each HTTP route handler as a function from the pool state (and request
  data) to a response and the resulting pool state.

MySQL semantics used by the embedding are the documented ones:
`INSERT ... ON DUPLICATE KEY UPDATE` updates the matching row in place,
SQL `NULL` binds arise from JS `undefined`/`null` parameters, a `JSON`
column rejects values that are not valid JSON documents, and
`TRUNCATE TABLE` is DDL and therefore causes an implicit commit.
-/

namespace CalBackend

/-- The opening-brace character, kept out of string literals. -/
def lbrace : Char := Char.ofNat 123

/-- The closing-brace character, kept out of string literals. -/
def rbrace : Char := Char.ofNat 125

/-- JSON documents as JavaScript values.  Numbers are restricted to
integers; every document the server itself serializes only contains
structure, strings, booleans and nulls. -/
inductive Json where
  | null : Json
  | bool (b : Bool) : Json
  | num (n : Int) : Json
  | str (s : String) : Json
  | arr (elems : List Json) : Json
  | obj (fields : List (String × Json)) : Json

/-- Escape one character for a JSON string literal. -/
def escChar (c : Char) : String :=
  if c = '"' then "\\\""
  else if c = '\\' then "\\\\"
  else if c = '\n' then "\\n"
  else if c = '\t' then "\\t"
  else if c = '\r' then "\\r"
  else String.singleton c

/-- Escape a character list for a JSON string literal. -/
def escStr (cs : List Char) : String :=
  String.join (cs.map escChar)

mutual

/-- `JSON.stringify` on our document model. -/
def stringify : Json → String
  | Json.null => "null"
  | Json.bool true => "true"
  | Json.bool false => "false"
  | Json.num n => toString n
  | Json.str s => "\"" ++ escStr s.data ++ "\""
  | Json.arr xs => "[" ++ stringifyElems xs ++ "]"
  | Json.obj fs => String.singleton lbrace ++ stringifyFields fs ++ String.singleton rbrace

/-- Comma-separated serialization of array elements. -/
def stringifyElems : List Json → String
  | [] => ""
  | [x] => stringify x
  | x :: y :: r => stringify x ++ "," ++ stringifyElems (y :: r)

/-- Comma-separated serialization of object fields. -/
def stringifyFields : List (String × Json) → String
  | [] => ""
  | [(k, v)] => "\"" ++ escStr k.data ++ "\":" ++ stringify v
  | (k, v) :: y :: r =>
      "\"" ++ escStr k.data ++ "\":" ++ stringify v ++ "," ++ stringifyFields (y :: r)

end

/-- JSON/JS whitespace recognized by the parser and by `parseInt`. -/
def isJsWs (c : Char) : Bool :=
  c = ' ' || c = '\t' || c = '\n' || c = '\r'

/-- Drop leading whitespace. -/
def skipWsL : List Char → List Char
  | [] => []
  | c :: cs => if isJsWs c then skipWsL cs else c :: cs

/-- Decimal digit test. -/
def isDigitCh (c : Char) : Bool :=
  ('0' ≤ c) && (c ≤ '9')

/-- Split off a maximal run of leading decimal digits. -/
def takeDigits : List Char → List Char × List Char
  | [] => ([], [])
  | c :: cs =>
    if isDigitCh c then
      let p := takeDigits cs
      (c :: p.1, p.2)
    else ([], c :: cs)

/-- Value of a run of decimal digits. -/
def digitsVal (ds : List Char) : Nat :=
  ds.foldl (fun a c => a * 10 + (c.toNat - Char.toNat '0')) 0

mutual

/-- Fueled JSON value parser; returns the value and the unconsumed rest. -/
def pVal : Nat → List Char → Option (Json × List Char)
  | 0, _ => none
  | fuel + 1, cs =>
    match skipWsL cs with
    | [] => none
    | c :: rest =>
      if c = 'n' then
        match rest with
        | 'u' :: 'l' :: 'l' :: r => some (Json.null, r)
        | _ => none
      else if c = 't' then
        match rest with
        | 'r' :: 'u' :: 'e' :: r => some (Json.bool true, r)
        | _ => none
      else if c = 'f' then
        match rest with
        | 'a' :: 'l' :: 's' :: 'e' :: r => some (Json.bool false, r)
        | _ => none
      else if c = '"' then
        match pStrBody fuel [] rest with
        | some (s, r) => some (Json.str s, r)
        | none => none
      else if c = '-' then
        match takeDigits rest with
        | ([], _) => none
        | (ds, r) => some (Json.num (-(digitsVal ds : Int)), r)
      else if isDigitCh c then
        match takeDigits (c :: rest) with
        | (ds, r) => some (Json.num (digitsVal ds : Int), r)
      else if c = '[' then
        match skipWsL rest with
        | ']' :: r => some (Json.arr [], r)
        | cs2 =>
          match pElems fuel cs2 with
          | some (xs, r) => some (Json.arr xs, r)
          | none => none
      else if c = lbrace then
        match skipWsL rest with
        | [] => none
        | d :: r =>
          if d = rbrace then some (Json.obj [], r)
          else
            match pFields fuel (d :: r) with
            | some (fs, r2) => some (Json.obj fs, r2)
            | none => none
      else none

/-- Fueled parser for the body of a JSON string literal (after the
opening quote), accumulating characters in reverse. -/
def pStrBody : Nat → List Char → List Char → Option (String × List Char)
  | 0, _, _ => none
  | fuel + 1, acc, cs =>
    match cs with
    | [] => none
    | c :: r =>
      if c = '"' then some (String.mk acc.reverse, r)
      else if c = '\\' then
        match r with
        | [] => none
        | e :: r2 =>
          if e = '"' || e = '\\' || e = '/' then pStrBody fuel (e :: acc) r2
          else if e = 'n' then pStrBody fuel ('\n' :: acc) r2
          else if e = 't' then pStrBody fuel ('\t' :: acc) r2
          else if e = 'r' then pStrBody fuel ('\r' :: acc) r2
          else if e = 'b' then pStrBody fuel (Char.ofNat 8 :: acc) r2
          else if e = 'f' then pStrBody fuel (Char.ofNat 12 :: acc) r2
          else none
      else pStrBody fuel (c :: acc) r

/-- Fueled parser for the elements of a non-empty JSON array (after the
opening bracket). -/
def pElems : Nat → List Char → Option (List Json × List Char)
  | 0, _ => none
  | fuel + 1, cs =>
    match pVal fuel cs with
    | none => none
    | some (j, r) =>
      match skipWsL r with
      | ',' :: r2 =>
        match pElems fuel r2 with
        | some (xs, r3) => some (j :: xs, r3)
        | none => none
      | ']' :: r2 => some ([j], r2)
      | _ => none

/-- Fueled parser for the fields of a non-empty JSON object (after the
opening brace). -/
def pFields : Nat → List Char → Option (List (String × Json) × List Char)
  | 0, _ => none
  | fuel + 1, cs =>
    match skipWsL cs with
    | [] => none
    | c :: r =>
      if c = '"' then
        match pStrBody fuel [] r with
        | none => none
        | some (k, r2) =>
          match skipWsL r2 with
          | ':' :: r3 =>
            match pVal fuel r3 with
            | none => none
            | some (v, r4) =>
              match skipWsL r4 with
              | ',' :: r5 =>
                match pFields fuel r5 with
                | some (fs, r6) => some ((k, v) :: fs, r6)
                | none => none
              | d :: r5 => if d = rbrace then some ([(k, v)], r5) else none
              | [] => none
          | _ => none
      else none

end

/-- `JSON.parse`, returning `none` where JS throws (the server wraps the
call in try/catch and maps the throw to `null`). -/
def jsonParse (s : String) : Option Json :=
  match pVal (2 * s.length + 8) s.data with
  | some (j, rest) => if skipWsL rest = [] then some j else none
  | none => none

/-- JavaScript truthiness of a JSON value. -/
def jsTruthy : Json → Bool
  | Json.null => false
  | Json.bool b => b
  | Json.num n => decide (n ≠ 0)
  | Json.str s => decide (s ≠ "")
  | Json.arr _ => true
  | Json.obj _ => true

/-- Truthiness of a possibly-missing JS value (`none` = `undefined`/`null`). -/
def optJsTruthy : Option Json → Bool
  | none => false
  | some j => jsTruthy j

/-- Property access `v.k` on a parsed value: `undefined` (`none`) unless
`v` is an object with field `k`. -/
def objGet : Option Json → String → Option Json
  | some (Json.obj fs), k => (fs.find? (fun p => p.1 == k)).map (fun p => p.2)
  | _, _ => none

/-- Sign handling of `parseInt`. -/
def parseSign : List Char → Int × List Char
  | '-' :: r => (-1, r)
  | '+' :: r => (1, r)
  | cs => (1, cs)

/-- Hexadecimal digit test. -/
def isHexDigitCh (c : Char) : Bool :=
  isDigitCh c || (('a' ≤ c) && (c ≤ 'f')) || (('A' ≤ c) && (c ≤ 'F'))

/-- Split off a maximal run of leading hexadecimal digits. -/
def takeHexDigits : List Char → List Char × List Char
  | [] => ([], [])
  | c :: cs =>
    if isHexDigitCh c then
      let p := takeHexDigits cs
      (c :: p.1, p.2)
    else ([], c :: cs)

/-- Value of one hexadecimal digit. -/
def hexDigitVal (c : Char) : Nat :=
  if isDigitCh c then c.toNat - Char.toNat '0'
  else if ('a' ≤ c) && (c ≤ 'f') then c.toNat - Char.toNat 'a' + 10
  else c.toNat - Char.toNat 'A' + 10

/-- Value of a run of hexadecimal digits. -/
def hexDigitsVal (ds : List Char) : Nat :=
  ds.foldl (fun a c => a * 16 + hexDigitVal c) 0

/-- JavaScript `parseInt(s)` (radix auto-detection): skip whitespace, an
optional sign, then a maximal run of decimal digits — or, after `0x`/`0X`,
hexadecimal digits.  `none` is `NaN`. -/
def parseIntJs (s : String) : Option Int :=
  let cs := skipWsL s.data
  let sc := parseSign cs
  match sc.2 with
  | '0' :: x :: r =>
    if x = 'x' || x = 'X' then
      match takeHexDigits r with
      | ([], _) => none
      | (ds, _) => some (sc.1 * (hexDigitsVal ds : Int))
    else
      match takeDigits ('0' :: x :: r) with
      | ([], _) => none
      | (ds, _) => some (sc.1 * (digitsVal ds : Int))
  | cs2 =>
    match takeDigits cs2 with
    | ([], _) => none
    | (ds, _) => some (sc.1 * (digitsVal ds : Int))

/-! ## The `annual_plans` table and the connection pool -/

/-- One row of `annual_plans`.  `data` is a `JSON NOT NULL` column (held
as its serialized text, which is how the driver hands JSON columns to the
handlers under the `typeCast` used by the server); `theme` and
`bg_images` are nullable (`none` = SQL `NULL`). -/
structure PlanRow where
  id : Nat
  year : Int
  data : String
  theme : Option String
  bg_images : Option String
  created_at : Int
deriving Repr, DecidableEq

/-- The `annual_plans` table. -/
abbrev Table := List PlanRow

/-- Response bodies: either a JSON document built by the handler, or the
raw driver rows passed straight to `res.json` by the backup endpoint. -/
inductive RespBody where
  | json (j : Json) : RespBody
  | rowsDump (rows : List PlanRow) : RespBody

/-- An HTTP response: status code and body. -/
structure Response where
  status : Nat
  body : RespBody

/-- `\x7berror:'資料庫離線'\x7d`, sent with 503 whenever `pool` is null. -/
def offlineBody : RespBody := RespBody.json (Json.obj [("error", Json.str "資料庫離線")])

/-- `\x7bmessage:'無資料'\x7d`, sent with 404 when the year has no row. -/
def noDataBody : RespBody := RespBody.json (Json.obj [("message", Json.str "無資料")])

/-- `\x7bmessage:'資料損毀'\x7d`, sent with 404 when a stored document
fails the parse/truthiness check. -/
def corruptBody : RespBody := RespBody.json (Json.obj [("message", Json.str "資料損毀")])

/-- `\x7berror:'伺服器錯誤'\x7d`, sent with 500 from the catch blocks of
the per-year routes. -/
def serverErrBody : RespBody := RespBody.json (Json.obj [("error", Json.str "伺服器錯誤")])

/-- `\x7berror:'資料不完整'\x7d`, sent with 400 when `yearData` or
`monthData` fails the truthiness test. -/
def incompleteBody : RespBody := RespBody.json (Json.obj [("error", Json.str "資料不完整")])

/-- `\x7berror:'格式錯誤：備份檔案應為陣列'\x7d`, sent with 400 when the
restore body is not an array. -/
def notArrayBody : RespBody :=
  RespBody.json (Json.obj [("error", Json.str "格式錯誤：備份檔案應為陣列")])

/-- `\x7bsuccess:true\x7d`, sent by the upsert route. -/
def successBody : RespBody := RespBody.json (Json.obj [("success", Json.bool true)])

/-- Restore success body with the row count interpolated. -/
def restoreOkBody (n : Nat) : RespBody :=
  RespBody.json (Json.obj [("success", Json.bool true),
    ("message", Json.str ("成功還原 " ++ toString n ++ " 筆年度資料"))])

/-- Restore failure body (the server interpolates the driver message; the
model keeps the fixed prefix). -/
def restoreFailBody : RespBody :=
  RespBody.json (Json.obj [("error", Json.str "還原失敗")])

/-- Clear-data success body. -/
def clearOkBody : RespBody :=
  RespBody.json (Json.obj [("success", Json.bool true),
    ("message", Json.str "資料庫已徹底重置。")])

/-- Health-check body of `GET /api/status`. -/
def statusOkBody (dbConnected : Bool) : RespBody :=
  RespBody.json (Json.obj [("status", Json.str "ok"),
    ("message", Json.str "Cal Planner Backend is running."),
    ("dbConnected", Json.bool dbConnected)])

/-! ## Configuration resolution (connectToDatabase, lines 14–45) -/

/-- The environment variables `connectToDatabase` consults.  `none` means
the variable is unset. -/
structure Env where
  DB_HOST : Option String
  DB_USER : Option String
  DB_PASS : Option String
  DB_NAME : Option String
  MYSQL_HOST : Option String
  MYSQL_USER : Option String
  MYSQL_PASSWORD : Option String
  MYSQL_DATABASE : Option String
  MYSQL_PORT : Option String
deriving Repr, DecidableEq

/-- JS truthiness of an environment variable (unset or empty is falsy). -/
def envTruthy : Option String → Bool
  | none => false
  | some s => decide (s ≠ "")

/-- `v || d` for the port default. -/
def jsOrDefault (v : Option String) (d : String) : String :=
  match v with
  | none => d
  | some s => if s = "" then d else s

/-- A resolved connection configuration. -/
structure DbConfig where
  host : String
  user : String
  password : String
  database : String
  port : String
deriving Repr, DecidableEq

/-- Which branch of `connectToDatabase` fired. -/
inductive ConnectChoice where
  | manual (cfg : DbConfig) : ConnectChoice
  | platform (cfg : DbConfig) : ConnectChoice
  | skipped : ConnectChoice
deriving Repr, DecidableEq

/-- The layered configuration resolution of `connectToDatabase`:
the manual `DB_*` group is checked first, then the platform `MYSQL_*`
group; with neither complete the function returns without connecting. -/
def resolveDbConfig (env : Env) : ConnectChoice :=
  if envTruthy env.DB_HOST && envTruthy env.DB_USER
      && envTruthy env.DB_PASS && envTruthy env.DB_NAME then
    ConnectChoice.manual
      { host := env.DB_HOST.getD "", user := env.DB_USER.getD "",
        password := env.DB_PASS.getD "", database := env.DB_NAME.getD "",
        port := jsOrDefault env.MYSQL_PORT "3306" }
  else if envTruthy env.MYSQL_HOST && envTruthy env.MYSQL_USER
      && envTruthy env.MYSQL_PASSWORD && envTruthy env.MYSQL_DATABASE then
    ConnectChoice.platform
      { host := env.MYSQL_HOST.getD "", user := env.MYSQL_USER.getD "",
        password := env.MYSQL_PASSWORD.getD "", database := env.MYSQL_DATABASE.getD "",
        port := jsOrDefault env.MYSQL_PORT "3306" }
  else ConnectChoice.skipped

/-- `connectToDatabase`: resolve the configuration; with no complete
group, return leaving `pool` null; otherwise attempt pool creation, the
charset setup and `createTable` (`attempt`, which yields the resulting
table on success and `none` when the try/catch sets `pool = null`). -/
def connectToDatabase (env : Env) (attempt : DbConfig → Option Table) : Option Table :=
  match resolveDbConfig env with
  | ConnectChoice.skipped => none
  | ConnectChoice.manual cfg => attempt cfg
  | ConnectChoice.platform cfg => attempt cfg

/-! ## Route handlers -/

/-- `safeParseJson` applied to a driver column value (`none` = SQL `NULL`,
which the driver hands over as JS `null` and the helper returns as-is;
a string is `JSON.parse`d with errors mapped to `null`).  The result
`none` stands for JS `null`/parse failure. -/
def safeParseJson : Option String → Option Json
  | none => none
  | some s => jsonParse s

/-- `GET /api/status` (line 88): always 200, reporting `!!pool`. -/
def statusHandler (pool : Option Table) : Response :=
  { status := 200, body := statusOkBody pool.isSome }

/-- `GET /api/plan/:year` (lines 169–198).  A year string parsing to
`NaN` reaches `pool.query` as the literal `NaN`, which MySQL rejects
(unknown column), so the catch block answers 500. -/
def getPlanHandler (pool : Option Table) (yearStr : String) : Response :=
  match pool with
  | none => { status := 503, body := offlineBody }
  | some table =>
    match parseIntJs yearStr with
    | none => { status := 500, body := serverErrBody }
    | some year =>
      match table.find? (fun row => row.year == year) with
      | none => { status := 404, body := noDataBody }
      | some row =>
        let parsedData := safeParseJson (some row.data)
        let parsedBgImages := safeParseJson row.bg_images
        if !optJsTruthy parsedData || !optJsTruthy parsedBgImages then
          { status := 404, body := corruptBody }
        else
          { status := 200, body := RespBody.json (Json.obj
              ([("year", Json.num year)]
                ++ [("theme", match row.theme with
                      | some s => Json.str s
                      | none => Json.null)]
                ++ (match objGet parsedData "yearData" with
                      | some v => [("yearData", v)]
                      | none => [])
                ++ (match objGet parsedData "monthData" with
                      | some v => [("monthData", v)]
                      | none => [])
                ++ (match parsedBgImages with
                      | some v => [("backgroundImages", v)]
                      | none => []))) }

/-- The request body of `POST /api/plan/:year` after destructuring.
`none` fields are absent (`undefined`); a `theme` of JS `null` behaves
like an absent one (both bind SQL `NULL`), so it is folded into `none`. -/
structure PostBody where
  yearData : Option Json
  monthData : Option Json
  theme : Option String
  backgroundImages : Option Json

/-- The single `INSERT ... ON DUPLICATE KEY UPDATE` statement of the
upsert route: with a row for `year` present (unique key `year`) its
`data`, `theme` and `bg_images` columns are overwritten in place
(`id` and `created_at` untouched); otherwise a fresh row is inserted
with `created_at` defaulted to the current timestamp. -/
def upsertQuery (table : Table) (year : Int) (dataStr : String)
    (theme : Option String) (bgStr : Option String) (now : Int) (nextId : Nat) : Table :=
  if table.any (fun row => row.year == year) then
    table.map (fun row =>
      if row.year == year then
        { row with data := dataStr, theme := theme, bg_images := bgStr }
      else row)
  else
    table ++ [{ id := nextId, year := year, data := dataStr, theme := theme,
                bg_images := bgStr, created_at := now }]

/-- `POST /api/plan/:year` (lines 200–220).  Validation (`!yearData ||
!monthData`) runs before the query; `JSON.stringify(backgroundImages)`
of an absent field is `undefined`, which the driver binds as SQL `NULL`;
a `NaN` year makes the insert fail, answered 500 by the catch block.
`now`/`nextId` supply `CURRENT_TIMESTAMP` and `AUTO_INCREMENT`. -/
def postPlanHandler (pool : Option Table) (yearStr : String) (body : PostBody)
    (now : Int) (nextId : Nat) : Response × Option Table :=
  match pool with
  | none => ({ status := 503, body := offlineBody }, none)
  | some table =>
    if !optJsTruthy body.yearData || !optJsTruthy body.monthData then
      ({ status := 400, body := incompleteBody }, some table)
    else
      match parseIntJs yearStr with
      | none => ({ status := 500, body := serverErrBody }, some table)
      | some year =>
        let fullData := Json.obj [("yearData", body.yearData.getD Json.null),
                                  ("monthData", body.monthData.getD Json.null)]
        ({ status := 200, body := successBody },
         some (upsertQuery table year (stringify fullData) body.theme
                 (body.backgroundImages.map stringify) now nextId))

/-- `GET /api/db/backup` (lines 107–119): `SELECT * FROM annual_plans`,
rows handed to `res.json` untouched. -/
def backupHandler (pool : Option Table) : Response :=
  match pool with
  | none => { status := 503, body := offlineBody }
  | some table => { status := 200, body := RespBody.rowsDump table }

/-- `DELETE /api/test/clear-data` (lines 93–103): drop and recreate the
table. -/
def clearDataHandler (pool : Option Table) : Response × Option Table :=
  match pool with
  | none => ({ status := 503, body := offlineBody }, none)
  | some _ => ({ status := 200, body := clearOkBody }, some [])

/-! ## Restore (POST /api/db/restore, lines 122–158) -/

/-- A `data`/`bg_images` field of an uploaded backup row: an
already-serialized string, a structured value (to be `JSON.stringify`ed),
or absent (`JSON.stringify(undefined)` is `undefined`, bound as SQL
`NULL`). -/
inductive JsDoc where
  | jstr (s : String) : JsDoc
  | jval (j : Json) : JsDoc
  | jundef : JsDoc

/-- The column string a `JsDoc` turns into (`none` = SQL `NULL`). -/
def toColumnStr : JsDoc → Option String
  | JsDoc.jstr s => some s
  | JsDoc.jval j => some (stringify j)
  | JsDoc.jundef => none

/-- One row of an uploaded backup array.  `year` is `none` when the field
is missing or not convertible to an `INT`; `created_at` is `none` when
`new Date(row.created_at)` is invalid — both make the `INSERT` fail. -/
structure RestoreRow where
  year : Option Int
  data : JsDoc
  theme : Option String
  bg_images : JsDoc
  created_at : Option Int

/-- Whether MySQL accepts the `INSERT` of `r` into the working table:
`year` must be a non-NULL `INT` not violating the `unique_year` key,
`data` a non-NULL valid JSON document, `bg_images` `NULL` or valid JSON,
and the timestamp valid. -/
def insertOk (table : Table) (r : RestoreRow) : Bool :=
  r.year.isSome
    && !(table.any (fun q => some q.year == r.year))
    && (match toColumnStr r.data with
        | some s => (jsonParse s).isSome
        | none => false)
    && (match toColumnStr r.bg_images with
        | some s => (jsonParse s).isSome
        | none => true)
    && r.created_at.isSome

/-- The stored row an accepted backup row becomes (`AUTO_INCREMENT`
restarts at 1 after `TRUNCATE`). -/
def convRow (nextId : Nat) (r : RestoreRow) : PlanRow :=
  { id := nextId, year := r.year.getD 0, data := (toColumnStr r.data).getD "",
    theme := r.theme, bg_images := toColumnStr r.bg_images,
    created_at := r.created_at.getD 0 }

/-- The insert loop of the restore route.  `TRUNCATE TABLE` is DDL and
causes an implicit commit in MySQL, ending the transaction opened by
`beginTransaction`; the loop's `INSERT`s therefore each run (and commit)
in autocommit mode, and the `rollback()` in the catch block finds no open
transaction to undo.  The pair returned is the committed table when the
loop stops together with whether every row was accepted. -/
def runRestoreInserts : Table → List RestoreRow → Table × Bool
  | t, [] => (t, true)
  | t, r :: rs =>
    if insertOk t r then runRestoreInserts (t ++ [convRow (t.length + 1) r]) rs
    else (t, false)

/-- The body of `POST /api/db/restore`: `Array.isArray` gates it. -/
inductive RestoreBody where
  | arr (rows : List RestoreRow) : RestoreBody
  | nonArray : RestoreBody

/-- `POST /api/db/restore` (lines 122–158): offline check, array check,
then `TRUNCATE` (implicitly committed — the working table is empty from
here on regardless of the outcome) and the insert loop; a failing insert
answers 500 after the ineffective rollback, success commits and reports
the row count. -/
def restoreHandler (pool : Option Table) (body : RestoreBody) : Response × Option Table :=
  match pool with
  | none => ({ status := 503, body := offlineBody }, none)
  | some _ =>
    match body with
    | RestoreBody.nonArray => ({ status := 400, body := notArrayBody }, pool)
    | RestoreBody.arr rows =>
      match runRestoreInserts [] rows with
      | (t2, true) => ({ status := 200, body := restoreOkBody rows.length }, some t2)
      | (t2, false) => ({ status := 500, body := restoreFailBody }, some t2)

/-! ## Concrete fixtures used by witnesses and counterexamples -/

/-- A pre-existing stored row (year 2024). -/
def row2024 : PlanRow :=
  { id := 1, year := 2024, data := "null", theme := none, bg_images := none, created_at := 100 }

/-- A backup row every one of whose required fields is missing (the empty
object `\x7b\x7d` as a backup entry): its `INSERT` fails. -/
def badBackupRow : RestoreRow :=
  { year := none, data := JsDoc.jundef, theme := none, bg_images := JsDoc.jundef,
    created_at := none }

/-- A well-formed backup row whose `INSERT` succeeds. -/
def goodBackupRow : RestoreRow :=
  { year := some 2030, data := JsDoc.jval (Json.obj []), theme := some "t",
    bg_images := JsDoc.jval (Json.arr []), created_at := some 50 }

/-- The POST body of the spec's concrete scenario:
`\x7byearData:\x7b\x7d, monthData:\x7b\x7d, theme:"dark"\x7d` with
`backgroundImages` omitted. -/
def scenarioBody : PostBody :=
  { yearData := some (Json.obj []), monthData := some (Json.obj []),
    theme := some "dark", backgroundImages := none }

/-- A POST body whose `yearData` is present but JS-falsy (`0`). -/
def falsyPresentBody : PostBody :=
  { yearData := some (Json.num 0), monthData := some (Json.obj []),
    theme := none, backgroundImages := none }

/-- A fully truthy POST body carrying all four fields. -/
def fullPostBody : PostBody :=
  { yearData := some (Json.obj [("a", Json.num 1)]), monthData := some (Json.obj []),
    theme := some "new", backgroundImages := some (Json.arr [Json.num 2]) }

/-- A truthy POST body omitting both optional fields. -/
def bareTruthyBody : PostBody :=
  { yearData := some (Json.obj []), monthData := some (Json.obj []),
    theme := none, backgroundImages := none }

/-- A stored row for year 2025 with both optional columns populated. -/
def decoratedRow2025 : PlanRow :=
  { id := 3, year := 2025, data := "null", theme := some "dark",
    bg_images := some "[1]", created_at := 77 }

/-- A stored row whose `data` column does not parse as JSON. -/
def corruptRow2024 : PlanRow :=
  { id := 1, year := 2024, data := "oops", theme := none, bg_images := some "[]",
    created_at := 0 }

/-- The empty environment. -/
def envEmpty : Env :=
  { DB_HOST := none, DB_USER := none, DB_PASS := none, DB_NAME := none,
    MYSQL_HOST := none, MYSQL_USER := none, MYSQL_PASSWORD := none,
    MYSQL_DATABASE := none, MYSQL_PORT := none }

/-- Both variable groups fully set (manual must win). -/
def envBoth : Env :=
  { DB_HOST := some "mh", DB_USER := some "mu", DB_PASS := some "mp", DB_NAME := some "md",
    MYSQL_HOST := some "ph", MYSQL_USER := some "pu", MYSQL_PASSWORD := some "pp",
    MYSQL_DATABASE := some "pd", MYSQL_PORT := some "3307" }

/-- Only the platform group set. -/
def envPlatform : Env :=
  { DB_HOST := none, DB_USER := some "mu", DB_PASS := none, DB_NAME := none,
    MYSQL_HOST := some "ph", MYSQL_USER := some "pu", MYSQL_PASSWORD := some "pp",
    MYSQL_DATABASE := some "pd", MYSQL_PORT := none }

/-! ## Shared lemmas -/

/-- `find?` by year commutes with a year-preserving row update. -/
lemma find?_map_year (t : Table) (y : Int) (g : PlanRow → PlanRow)
    (hg : ∀ q, (g q).year = q.year) :
    (t.map g).find? (fun row => row.year == y)
      = (t.find? (fun row => row.year == y)).map g := by
  induction t with
  | nil => rfl
  | cons a t ih =>
    simp only [List.map_cons, List.find?_cons, hg a]
    cases h : (a.year == y) <;> simp [h, ih]

/-- One upsert statement on a table containing the year: the row found
afterwards is the old row with `data`, `theme`, `bg_images` overwritten. -/
lemma upsert_existing_find? (t : Table) (y : Int) (d : String)
    (th bg : Option String) (now : Int) (nid : Nat) (r : PlanRow)
    (hr : t.find? (fun row => row.year == y) = some r) :
    (upsertQuery t y d th bg now nid).find? (fun row => row.year == y)
      = some { r with data := d, theme := th, bg_images := bg } := by
  have hmem : r ∈ t := List.mem_of_find?_eq_some hr
  have hpr : (r.year == y) = true := by
    have h2 := List.find?_some hr
    simpa using h2
  have hany : t.any (fun row => row.year == y) = true :=
    List.any_eq_true.mpr ⟨r, hmem, hpr⟩
  unfold upsertQuery
  rw [if_pos hany,
      find?_map_year t y _ (fun q => by cases hq : (q.year == y) <;> simp [hq]),
      hr]
  have hyr : r.year = y := by simpa using hpr
  simp [hyr]

/-- Reduction of the upsert route past validation and year parsing. -/
lemma postPlan_online_snd (t : Table) (ys : String) (y : Int) (body : PostBody)
    (now : Int) (nid : Nat)
    (hy : parseIntJs ys = some y)
    (hyd : optJsTruthy body.yearData = true)
    (hmd : optJsTruthy body.monthData = true) :
    (postPlanHandler (some t) ys body now nid).2
      = some (upsertQuery t y
          (stringify (Json.obj [("yearData", body.yearData.getD Json.null),
                                ("monthData", body.monthData.getD Json.null)]))
          body.theme (body.backgroundImages.map stringify) now nid) := by
  simp [postPlanHandler, hy, hyd, hmd]

/-! ## Claim theorems -/

/-- C1: the claim says a failed restore rolls back to exactly the prior
table and that a proper-prefix state is never observable.  On MySQL the
`TRUNCATE` inside the transaction implicitly commits, so the code does
not satisfy this: restoring `[badBackupRow]` over a table holding
`row2024` answers 500 yet leaves the table empty (prior data lost), and
restoring `[goodBackupRow, badBackupRow]` answers 500 yet leaves exactly
the proper prefix `[convRow 1 goodBackupRow]` — neither the old data nor
all new rows. -/
theorem restore_truncate_breaks_atomicity :
    (restoreHandler (some [row2024]) (RestoreBody.arr [badBackupRow])).1.status = 500
  ∧ (restoreHandler (some [row2024]) (RestoreBody.arr [badBackupRow])).2 = some []
  ∧ ([] : Table) ≠ [row2024]
  ∧ (restoreHandler (some [row2024])
        (RestoreBody.arr [goodBackupRow, badBackupRow])).1.status = 500
  ∧ (restoreHandler (some [row2024])
        (RestoreBody.arr [goodBackupRow, badBackupRow])).2 = some [convRow 1 goodBackupRow]
  ∧ [convRow 1 goodBackupRow] ≠ [row2024]
  ∧ [convRow 1 goodBackupRow]
      ≠ [convRow 1 goodBackupRow, convRow 2 badBackupRow] := by
  refine ⟨rfl, rfl, by decide, rfl, rfl, by decide, by decide⟩

/-- C2: the claim's round trip fails on the code at the spec's own
concrete input: `POST /api/plan/2025` with
`\x7byearData:\x7b\x7d, monthData:\x7b\x7d, theme:"dark"\x7d` (no
`backgroundImages`) answers 200 and stores SQL `NULL` in `bg_images`,
but the subsequent `GET /api/plan/2025` then fails the
`!parsedBgImages` truthiness check and answers 404 `資料損毀` instead of
returning the posted data with `backgroundImages:null`. -/
theorem post_then_get_scenario_corrupt :
    (postPlanHandler (some []) "2025" scenarioBody 0 1).1.status = 200
  ∧ (postPlanHandler (some []) "2025" scenarioBody 0 1).1.body = successBody
  ∧ getPlanHandler (postPlanHandler (some []) "2025" scenarioBody 0 1).2 "2025"
      = { status := 404, body := corruptBody } :=
  ⟨rfl, rfl, rfl⟩

/-- C3: a stored row whose document fails to deserialize is answered
404 with the `資料損毀` body, an absent year 404 with the distinct
`無資料` body — the corrupt outcome is reported distinctly from
not-found, and both map to 404. -/
theorem get_corrupt_distinct_from_notfound (t : Table) (ys : String) (y : Int)
    (r : PlanRow) (hy : parseIntJs ys = some y) :
    (t.find? (fun row => row.year == y) = some r → jsonParse r.data = none →
      getPlanHandler (some t) ys = { status := 404, body := corruptBody })
  ∧ (t.find? (fun row => row.year == y) = none →
      getPlanHandler (some t) ys = { status := 404, body := noDataBody })
  ∧ corruptBody ≠ noDataBody := by
  refine ⟨fun hf hp => ?_, fun hf => ?_, ?_⟩
  · simp [getPlanHandler, hy, hf, safeParseJson, hp, optJsTruthy]
  · simp [getPlanHandler, hy, hf]
  · intro h
    simp only [corruptBody, noDataBody, RespBody.json.injEq, Json.obj.injEq,
      List.cons.injEq, Prod.mk.injEq, Json.str.injEq, and_true, true_and] at h
    exact absurd h (by decide)

/-- C3 witness: the corrupt row `corruptRow2024` (data `"oops"`) and the
empty table, both at year 2024. -/
theorem get_corrupt_distinct_from_notfound_witness :
    (getPlanHandler (some [corruptRow2024]) "2024"
        = { status := 404, body := corruptBody })
  ∧ (getPlanHandler (some ([] : Table)) "2024"
        = { status := 404, body := noDataBody })
  ∧ corruptBody ≠ noDataBody :=
  ⟨(get_corrupt_distinct_from_notfound [corruptRow2024] "2024" 2024 corruptRow2024 rfl).1
      rfl rfl,
   (get_corrupt_distinct_from_notfound [] "2024" 2024 corruptRow2024 rfl).2.1 rfl,
   (get_corrupt_distinct_from_notfound [] "2024" 2024 corruptRow2024 rfl).2.2⟩

/-- C4: upserting a year that already has a stored row overwrites its
`data`, `theme` and `bg_images` columns with the newly supplied values
and leaves `created_at` (and `id`) unchanged. -/
theorem upsert_preserves_created_at (t : Table) (ys : String) (y : Int)
    (body : PostBody) (now : Int) (nid : Nat) (r : PlanRow)
    (hy : parseIntJs ys = some y)
    (hyd : optJsTruthy body.yearData = true)
    (hmd : optJsTruthy body.monthData = true)
    (hr : t.find? (fun row => row.year == y) = some r) :
    ∃ t2, (postPlanHandler (some t) ys body now nid).2 = some t2
      ∧ ∃ row2, t2.find? (fun row => row.year == y) = some row2
          ∧ row2.created_at = r.created_at
          ∧ row2.id = r.id
          ∧ row2.data = stringify (Json.obj
              [("yearData", body.yearData.getD Json.null),
               ("monthData", body.monthData.getD Json.null)])
          ∧ row2.theme = body.theme
          ∧ row2.bg_images = body.backgroundImages.map stringify := by
  refine ⟨_, postPlan_online_snd t ys y body now nid hy hyd hmd, ?_⟩
  exact ⟨_, upsert_existing_find? t y _ _ _ now nid r hr, rfl, rfl, rfl, rfl, rfl⟩

/-- C4 witness: year 2025 already stored as `decoratedRow2025`
(created_at 77); upserting `fullPostBody` overwrites the payload columns
and keeps created_at 77. -/
theorem upsert_preserves_created_at_witness :
    ∃ t2, (postPlanHandler (some [decoratedRow2025]) "2025" fullPostBody 9 4).2 = some t2
      ∧ ∃ row2, t2.find? (fun row => row.year == 2025) = some row2
          ∧ row2.created_at = decoratedRow2025.created_at
          ∧ row2.id = decoratedRow2025.id
          ∧ row2.data = stringify (Json.obj
              [("yearData", fullPostBody.yearData.getD Json.null),
               ("monthData", fullPostBody.monthData.getD Json.null)])
          ∧ row2.theme = fullPostBody.theme
          ∧ row2.bg_images = fullPostBody.backgroundImages.map stringify :=
  upsert_preserves_created_at [decoratedRow2025] "2025" 2025 fullPostBody 9 4
    decoratedRow2025 rfl rfl rfl rfl

/-- C5 counterexample: the claim says validation rejects exactly the
bodies with an absent `yearData`/`monthData`; but `falsyPresentBody`
carries a present (`some`) `yearData` of `0` and is still answered 400,
because the code tests JS truthiness (`!yearData`), not absence. -/
theorem post_validation_rejects_present_falsy :
    falsyPresentBody.yearData ≠ none
  ∧ (postPlanHandler (some []) "2025" falsyPresentBody 0 1).1.status = 400
  ∧ (postPlanHandler (some []) "2025" falsyPresentBody 0 1).1.body = incompleteBody := by
  refine ⟨?_, rfl, rfl⟩
  simp [falsyPresentBody]

/-- C5 (amended): with the pool online, `POST /api/plan/:year` answers
the 400 validation error exactly when `yearData` or `monthData` is
absent or JS-falsy; with both truthy no validation error is produced and
the request proceeds to the store query. -/
theorem post_validation_iff_falsy (t : Table) (ys : String) (body : PostBody)
    (now : Int) (nid : Nat) :
    (postPlanHandler (some t) ys body now nid).1.status = 400
      ↔ (optJsTruthy body.yearData = false ∨ optJsTruthy body.monthData = false) := by
  unfold postPlanHandler
  cases hyd : optJsTruthy body.yearData <;> cases hmd : optJsTruthy body.monthData <;>
    simp [hyd, hmd]
  cases hy : parseIntJs ys <;> simp [hy]

/-- C5 witness: a body with `monthData` absent is answered 400. -/
theorem post_validation_iff_falsy_witness :
    (postPlanHandler (some []) "2025"
        { yearData := some (Json.obj []), monthData := none,
          theme := none, backgroundImages := none } 0 1).1.status = 400 :=
  (post_validation_iff_falsy [] "2025"
      { yearData := some (Json.obj []), monthData := none,
        theme := none, backgroundImages := none } 0 1).mpr (Or.inr rfl)

/-- C6: when connection or initialization fails (or no configuration is
complete), the process keeps running with `pool = null`; in that state
every data endpoint short-circuits to 503 with the offline body before
touching the store, while `GET /api/status` answers 200 with
`dbConnected:false`. -/
theorem offline_mode_all_endpoints (env : Env) (attempt : DbConfig → Option Table)
    (hfail : ∀ cfg, attempt cfg = none) :
    connectToDatabase env attempt = none
  ∧ (∀ ys, getPlanHandler none ys = { status := 503, body := offlineBody })
  ∧ (∀ ys body now nid, postPlanHandler none ys body now nid
        = ({ status := 503, body := offlineBody }, none))
  ∧ backupHandler none = { status := 503, body := offlineBody }
  ∧ (∀ body, restoreHandler none body = ({ status := 503, body := offlineBody }, none))
  ∧ clearDataHandler none = ({ status := 503, body := offlineBody }, none)
  ∧ statusHandler none = { status := 200, body := statusOkBody false } := by
  refine ⟨?_, fun ys => rfl, fun ys body now nid => rfl, rfl, fun body => rfl, rfl, rfl⟩
  unfold connectToDatabase
  cases resolveDbConfig env with
  | skipped => rfl
  | manual cfg => exact hfail cfg
  | platform cfg => exact hfail cfg

/-- C6 witness: the empty environment with every connection attempt
failing. -/
theorem offline_mode_all_endpoints_witness :
    connectToDatabase envEmpty (fun _ => none) = none
  ∧ getPlanHandler none "2025" = { status := 503, body := offlineBody }
  ∧ postPlanHandler none "2025" scenarioBody 0 1
      = ({ status := 503, body := offlineBody }, none)
  ∧ backupHandler none = { status := 503, body := offlineBody }
  ∧ restoreHandler none RestoreBody.nonArray
      = ({ status := 503, body := offlineBody }, none)
  ∧ clearDataHandler none = ({ status := 503, body := offlineBody }, none)
  ∧ statusHandler none = { status := 200, body := statusOkBody false } := by
  have h := offline_mode_all_endpoints envEmpty (fun _ => none) (fun _ => rfl)
  exact ⟨h.1, h.2.1 "2025", h.2.2.1 "2025" scenarioBody 0 1, h.2.2.2.1,
    h.2.2.2.2.1 RestoreBody.nonArray, h.2.2.2.2.2.1, h.2.2.2.2.2.2⟩

/-- C7: configuration resolution is layered — a complete manual `DB_*`
group wins (even with the platform group also set); otherwise a complete
platform `MYSQL_*` group is used; with neither complete the connection is
skipped and the pool stays null (offline boot) for every attempt. -/
theorem config_layered_precedence (env : Env) :
    (envTruthy env.DB_HOST = true → envTruthy env.DB_USER = true →
     envTruthy env.DB_PASS = true → envTruthy env.DB_NAME = true →
      resolveDbConfig env = ConnectChoice.manual
        { host := env.DB_HOST.getD "", user := env.DB_USER.getD "",
          password := env.DB_PASS.getD "", database := env.DB_NAME.getD "",
          port := jsOrDefault env.MYSQL_PORT "3306" })
  ∧ ((envTruthy env.DB_HOST && envTruthy env.DB_USER
        && envTruthy env.DB_PASS && envTruthy env.DB_NAME) = false →
     envTruthy env.MYSQL_HOST = true → envTruthy env.MYSQL_USER = true →
     envTruthy env.MYSQL_PASSWORD = true → envTruthy env.MYSQL_DATABASE = true →
      resolveDbConfig env = ConnectChoice.platform
        { host := env.MYSQL_HOST.getD "", user := env.MYSQL_USER.getD "",
          password := env.MYSQL_PASSWORD.getD "", database := env.MYSQL_DATABASE.getD "",
          port := jsOrDefault env.MYSQL_PORT "3306" })
  ∧ ((envTruthy env.DB_HOST && envTruthy env.DB_USER
        && envTruthy env.DB_PASS && envTruthy env.DB_NAME) = false →
     (envTruthy env.MYSQL_HOST && envTruthy env.MYSQL_USER
        && envTruthy env.MYSQL_PASSWORD && envTruthy env.MYSQL_DATABASE) = false →
      resolveDbConfig env = ConnectChoice.skipped
      ∧ ∀ attempt, connectToDatabase env attempt = none) := by
  refine ⟨fun h1 h2 h3 h4 => ?_, fun hm h1 h2 h3 h4 => ?_, fun hm hp => ?_⟩
  · simp [resolveDbConfig, h1, h2, h3, h4]
  · simp [resolveDbConfig, hm, h1, h2, h3, h4]
  · have hsk : resolveDbConfig env = ConnectChoice.skipped := by
      simp [resolveDbConfig, hm, hp]
    exact ⟨hsk, fun attempt => by simp [connectToDatabase, hsk]⟩

/-- C7 witness: with both groups set the manual one is used; with only
the platform group set it is used; with neither complete the resolution
is skipped and the pool stays null. -/
theorem config_layered_precedence_witness :
    resolveDbConfig envBoth = ConnectChoice.manual
      { host := "mh", user := "mu", password := "mp", database := "md", port := "3307" }
  ∧ resolveDbConfig envPlatform = ConnectChoice.platform
      { host := "ph", user := "pu", password := "pp", database := "pd", port := "3306" }
  ∧ (resolveDbConfig envEmpty = ConnectChoice.skipped
      ∧ ∀ attempt, connectToDatabase envEmpty attempt = none) :=
  ⟨(config_layered_precedence envBoth).1 rfl rfl rfl rfl,
   (config_layered_precedence envPlatform).2.1 rfl rfl rfl rfl rfl,
   (config_layered_precedence envEmpty).2.2 rfl rfl⟩

/-- C8: `GET /api/db/backup` answers 200 with the full
`SELECT * FROM annual_plans` row set handed to `res.json` verbatim — no
deserialization, transformation, filtering or validation of any row. -/
theorem backup_dump_verbatim (t : Table) :
    backupHandler (some t) = { status := 200, body := RespBody.rowsDump t } :=
  rfl

/-- C9: the `:year` path parameter is interpreted through `parseInt`:
the handlers depend on the path string only through `parseIntJs`, a
numeric prefix like `"2025abc"` operates on year 2025, and a string with
no numeric prefix parses to `NaN`, which is not rejected with a 400
validation error but passed into the store query, whose failure the
catch block answers 500 (table untouched). -/
theorem year_param_parseint (pool : Option Table) (t : Table) (body : PostBody)
    (now : Int) (nid : Nat) :
    parseIntJs "2025abc" = some 2025
  ∧ (∀ s s2, parseIntJs s = parseIntJs s2 →
        getPlanHandler pool s = getPlanHandler pool s2)
  ∧ getPlanHandler pool "2025abc" = getPlanHandler pool "2025"
  ∧ parseIntJs "abc" = none
  ∧ getPlanHandler (some t) "abc" = { status := 500, body := serverErrBody }
  ∧ (optJsTruthy body.yearData = true → optJsTruthy body.monthData = true →
      postPlanHandler (some t) "abc" body now nid
        = ({ status := 500, body := serverErrBody }, some t)) := by
  have hcong : ∀ s s2, parseIntJs s = parseIntJs s2 →
      getPlanHandler pool s = getPlanHandler pool s2 := by
    intro s s2 h
    cases pool with
    | none => rfl
    | some table => simp [getPlanHandler, h]
  refine ⟨rfl, hcong, hcong "2025abc" "2025" rfl, rfl, rfl, fun hyd hmd => ?_⟩
  simp [postPlanHandler, hyd, hmd]
  rfl

/-- C9 witness: concrete pool, table and truthy body. -/
theorem year_param_parseint_witness :
    parseIntJs "2025abc" = some 2025
  ∧ getPlanHandler (some [row2024]) "2025abc" = getPlanHandler (some [row2024]) "2025"
  ∧ parseIntJs "abc" = none
  ∧ getPlanHandler (some [row2024]) "abc" = { status := 500, body := serverErrBody }
  ∧ postPlanHandler (some [row2024]) "abc" bareTruthyBody 0 1
      = ({ status := 500, body := serverErrBody }, some [row2024]) := by
  have h := year_param_parseint (some [row2024]) [row2024] bareTruthyBody 0 1
  exact ⟨h.1, h.2.2.1, h.2.2.2.1, h.2.2.2.2.1, h.2.2.2.2.2 rfl rfl⟩

/-- C10: an upsert whose body omits `theme` and `backgroundImages`
overwrites the stored `theme` and `bg_images` columns with SQL `NULL`
even when the year previously had values there — omitted optional
fields do not preserve the previously stored values. -/
theorem omitted_optionals_overwrite_null (t : Table) (ys : String) (y : Int)
    (body : PostBody) (now : Int) (nid : Nat) (r : PlanRow)
    (hy : parseIntJs ys = some y)
    (hyd : optJsTruthy body.yearData = true)
    (hmd : optJsTruthy body.monthData = true)
    (hth : body.theme = none)
    (hbg : body.backgroundImages = none)
    (hr : t.find? (fun row => row.year == y) = some r) :
    ∃ t2, (postPlanHandler (some t) ys body now nid).2 = some t2
      ∧ ∃ row2, t2.find? (fun row => row.year == y) = some row2
          ∧ row2.theme = none
          ∧ row2.bg_images = none := by
  refine ⟨_, postPlan_online_snd t ys y body now nid hy hyd hmd, ?_⟩
  refine ⟨_, upsert_existing_find? t y _ _ _ now nid r hr, ?_, ?_⟩
  · simpa using hth
  · simp [hbg]

/-- C10 witness: year 2025 stored with `theme = "dark"` and
`bg_images = "[1]"`; upserting `bareTruthyBody` (no optional fields)
nulls both columns. -/
theorem omitted_optionals_overwrite_null_witness :
    ∃ t2, (postPlanHandler (some [decoratedRow2025]) "2025" bareTruthyBody 9 4).2 = some t2
      ∧ ∃ row2, t2.find? (fun row => row.year == 2025) = some row2
          ∧ row2.theme = none
          ∧ row2.bg_images = none :=
  omitted_optionals_overwrite_null [decoratedRow2025] "2025" 2025 bareTruthyBody 9 4
    decoratedRow2025 rfl rfl rfl rfl rfl rfl

end CalBackend
